import Mathlib

/-
Verification development for gpxfixer.py (track fusion of two GPX recordings).

The embedding models the fusion core over exact rationals:
  * TrackPoint      — one trkpt sample with the raw fields parsed by
                      TrackPoint.__init__ and the computed fields filled in by
                      GpxFile.__init__ (gpxfixer.py lines 14-103).
  * gpxInit         — the body of GpxFile.__init__ (lines 107-134): distance and
                      time accumulation, normalization, per-channel sample
                      collection, polynomial fitting, stationary-time total.
                      Python exceptions (IndexError from pts[-1] on an empty
                      track, ZeroDivisionError from the two normalizing
                      divisions) are modelled as an explicit error result.
  * GpxState.add_extensions / GpxState.fix_time — the synthesis and time
                      reconstruction passes (lines 65-97 and 136-145).

The geodesic distance (TrackPoint.adjust_distance, lines 47-59) is computed in
the source with floating-point trigonometry (numpy sin, cos, arctan2, sqrt);
transcendental float arithmetic has no exact computable embedding, so the whole
pipeline is parameterized by the distance function d.  Every fact proved below
holds for an arbitrary d (with a nonnegativity hypothesis where a claim needs
it, which the real haversine distance satisfies since arctan2 of a nonnegative
first argument is nonnegative).

Timestamps are modelled as rational numbers of seconds since an arbitrary
epoch; Python timedelta arithmetic on them is exact.

Two float phenomena of the program are modelled explicitly.  First, the two
normalizing divisions behave differently: the nelapsed division (line 44) is
pure-Python float division (timedelta.total_seconds() yields a float) and
raises ZeroDivisionError on a zero total duration, while the ndistance
division (line 63) operates on np.float64 values (the distance comes from
numpy trigonometry) and never raises — on a zero total distance it silently
yields NaN (0.0/0.0) or a signed infinity, with only a RuntimeWarning, and
construction continues.  NaN has no rational counterpart, so the embedding
keeps the rational division (whose convention places 0 where the program
places NaN); every theorem that speaks about the value of a position fraction
therefore carries a nonzero-total-distance hypothesis, and statements about
zero-distance tracks assert only NaN-independent facts (construction success,
the zero total, the accumulated distances).

Second, np.polyfit is modelled by np_polyfit3 with its failure mode made
explicit: np.polyfit scales the columns of the Vandermonde matrix by their
norms, so when every abscissa of a channel is 0 (for instance a channel
carried only by the first point, whose time fraction is 0, or any channel of
a one-point track) the x, x^2 and x^3 columns have norm 0, the scaling
produces NaN columns and lstsq raises LinAlgError, aborting construction.  On
any other nonempty sample set numpy returns a coefficient vector — for
rank-deficient sets it emits only a RankWarning and computes a minimum-norm
least-squares solution — and the pipeline never branches on the numeric
coefficients, only on their existence; the model returns the Cramer normal-
equation solution there (exact for full-rank sample sets, a well-defined
placeholder vector for rank-deficient ones).
-/

set_option maxHeartbeats 1000000

deriving instance DecidableEq for Except

namespace GpxFixer

/-- Geodesic distance function: latitude and longitude of the previous point,
then latitude and longitude of the current point, in degrees; result in
meters.  The pipeline of gpxfixer.py only ever consumes its value through
TrackPoint.distance. -/
abbrev DistFn := ℚ → ℚ → ℚ → ℚ → ℚ

/-- Raw fields of one trkpt element as parsed by TrackPoint.__init__
(gpxfixer.py lines 17-40): lat and lon attributes, the time child (seconds
since an arbitrary epoch), the ele child, and the optional extensions subtree,
modelled as a list of named groups, each group holding named numeric channel
values. -/
structure PtIn where
  lat : ℚ
  lon : ℚ
  time : ℚ
  ele : ℚ
  ext : Option (List (String × List (String × ℚ)))
deriving DecidableEq

/-- Channel list extracted from the extensions subtree: the tag children of the
first tag child of the extensions element; any failure (no extensions element,
or no group inside it) yields the empty list, mirroring the try/except in
TrackPoint.__init__ (gpxfixer.py lines 30-40). -/
def parse_extensions : Option (List (String × List (String × ℚ))) → List (String × ℚ)
  | none => []
  | some [] => []
  | some (g :: _) => g.2

/-- One track point with the fields mutated by the pipeline
(gpxfixer.py lines 17-29).  docExt models the extensions subtree of the
underlying document element self.pt, which add_extensions later rewrites. -/
structure TrackPoint where
  lat : ℚ
  lon : ℚ
  time : ℚ
  ele : ℚ
  elapsed : ℚ
  nelapsed : ℚ
  distance : ℚ
  accumulated_distance : ℚ
  ndistance : ℚ
  since_last : ℚ
  extensions : List (String × ℚ)
  docExt : Option (List (String × List (String × ℚ)))
deriving DecidableEq

/-- Minimum-motion threshold, gpxfixer.py line 15: MIN_RATE = 1.5. -/
def TrackPoint.MIN_RATE : ℚ := 3 / 2

/-- TrackPoint.__init__ (gpxfixer.py lines 17-40): record the parsed fields and
zero every computed field. -/
def initPoint (q : PtIn) : TrackPoint :=
  { lat := q.lat, lon := q.lon, time := q.time, ele := q.ele,
    elapsed := 0, nelapsed := 0, distance := 0, accumulated_distance := 0,
    ndistance := 0, since_last := 0,
    extensions := parse_extensions q.ext, docExt := q.ext }

/-- TrackPoint.adjust_time (gpxfixer.py lines 42-45): elapsed duration from the
origin, its fraction of the track total duration, and the duration since the
previous point. -/
def TrackPoint.adjust_time (origin last : TrackPoint) (total_seconds : ℚ)
    (cur : TrackPoint) : TrackPoint :=
  { cur with elapsed := cur.time - origin.time,
             nelapsed := (cur.time - origin.time) / total_seconds,
             since_last := cur.time - last.time }

/-- TrackPoint.adjust_distance (gpxfixer.py lines 47-59): distance from the
previous point.  The source computes the haversine great-circle distance with
numpy floating-point trigonometry; the embedding takes the distance function as
the parameter d. -/
def TrackPoint.adjust_distance (d : DistFn) (last cur : TrackPoint) : TrackPoint :=
  { cur with distance := d last.lat last.lon cur.lat cur.lon }

/-- TrackPoint.set_ndistance (gpxfixer.py lines 61-63): accumulated distance
and its fraction of the track total distance.  The division on line 63 is
np.float64 division: with a zero total distance the program silently computes
NaN (0.0/0.0) or a signed infinity and continues — it does not raise.  The
rational division used here places 0 where the program places NaN, so every
theorem about the value of ndistance assumes a nonzero total distance. -/
def TrackPoint.set_ndistance (last : TrackPoint) (total_distance : ℚ)
    (cur : TrackPoint) : TrackPoint :=
  { cur with accumulated_distance := cur.distance + last.accumulated_distance,
             ndistance := (cur.distance + last.accumulated_distance) / total_distance }

/-- TrackPoint.calc_still_time (gpxfixer.py lines 99-103): rate is
distance / since_last when since_last is positive and 0 otherwise; the whole
since_last interval counts as stationary exactly when rate < MIN_RATE. -/
def TrackPoint.calc_still_time (pt : TrackPoint) : ℚ :=
  if (if 0 < pt.since_last then pt.distance / pt.since_last else 0) < TrackPoint.MIN_RATE
  then pt.since_last else 0

/-- TrackPoint.fix_time (gpxfixer.py lines 92-97): the new timestamp is the
origin timestamp plus total_seconds * ndistance seconds.  The source also
reprints the timestamp into the document with millisecond precision; the value
level is modelled here. -/
def TrackPoint.fix_time (origin_time total_seconds : ℚ) (pt : TrackPoint) : TrackPoint :=
  { pt with time := origin_time + total_seconds * pt.ndistance }

/-- Per-channel regression samples in insertion order: channel name, x samples,
y samples — the values dictionary of GpxFile.__init__ (line 125). -/
abbrev Values := List (String × List ℚ × List ℚ)

/-- Record one sample for one channel, mirroring the dictionary update in
TrackPoint.append_fit_values (gpxfixer.py lines 85-90): a fresh channel is
appended at the end (Python dicts preserve insertion order), an existing
channel gets the sample appended to its x and y lists. -/
def add_sample : Values → String → ℚ → ℚ → Values
  | [], n, x, y => [(n, ([x], [y]))]
  | v :: rest, n, x, y =>
      if v.1 = n then (v.1, (v.2.1 ++ [x], v.2.2 ++ [y])) :: rest
      else v :: add_sample rest n x y

/-- TrackPoint.append_fit_values (gpxfixer.py lines 85-90): for every channel
carried by the point, append the sample (x = nelapsed, y = channel value). -/
def TrackPoint.append_fit_values (pt : TrackPoint) (values : Values) : Values :=
  pt.extensions.foldl (fun vs e => add_sample vs e.1 pt.nelapsed e.2) values

/-- Determinant of a 2 by 2 matrix given row-wise. -/
def det2 (a b c d : ℚ) : ℚ := a * d - b * c

/-- Determinant of a 3 by 3 matrix given row-wise. -/
def det3 (a b c d e f g h i : ℚ) : ℚ :=
  a * det2 e f h i - b * det2 d f g i + c * det2 d e g h

/-- Determinant of a 4 by 4 matrix given row-wise, by cofactor expansion along
the first row. -/
def det4 (a0 a1 a2 a3 b0 b1 b2 b3 c0 c1 c2 c3 d0 d1 d2 d3 : ℚ) : ℚ :=
  a0 * det3 b1 b2 b3 c1 c2 c3 d1 d2 d3
  - a1 * det3 b0 b2 b3 c0 c2 c3 d0 d2 d3
  + a2 * det3 b0 b1 b3 c0 c1 c3 d0 d1 d3
  - a3 * det3 b0 b1 b2 c0 c1 c2 d0 d1 d2

/-- Power sum of the sample abscissas. -/
def powSum (xs : List ℚ) (k : ℕ) : ℚ := (xs.map (fun x => x ^ k)).sum

/-- Mixed moment of the samples. -/
def mixSum (xs ys : List ℚ) (k : ℕ) : ℚ := ((xs.zip ys).map (fun p => p.1 ^ k * p.2)).sum

/-- Model of np.polyfit(x, y, 3) (called at gpxfixer.py line 131).  np.polyfit
scales the Vandermonde columns by their norms before calling lstsq; when every
abscissa is 0 the x, x^2 and x^3 columns have norm 0, the scaling divides 0 by
0 into NaN columns and lstsq raises LinAlgError — modelled as none.  (An empty
sample list, on which np.polyfit raises TypeError instead, never reaches this
call: a channel enters the values dictionary only together with its first
sample.)  On any other sample set numpy returns a coefficient vector, emitting
only a RankWarning together with a minimum-norm solution when the system is
rank-deficient; the model returns the coefficients of the ordinary
least-squares cubic, highest degree first, obtained from the normal equations
by Cramer rule — exact for full-rank sample sets, and a well-defined
placeholder for rank-deficient ones, whose numeric entries nothing in the
pipeline ever branches on. -/
def np_polyfit3 (xs ys : List ℚ) : Option (List ℚ) :=
  if ∀ x ∈ xs, x = 0 then none
  else
  let s0 := powSum xs 0
  let s1 := powSum xs 1
  let s2 := powSum xs 2
  let s3 := powSum xs 3
  let s4 := powSum xs 4
  let s5 := powSum xs 5
  let s6 := powSum xs 6
  let t0 := mixSum xs ys 0
  let t1 := mixSum xs ys 1
  let t2 := mixSum xs ys 2
  let t3 := mixSum xs ys 3
  let dm := det4 s6 s5 s4 s3 s5 s4 s3 s2 s4 s3 s2 s1 s3 s2 s1 s0
  let d3 := det4 t3 s5 s4 s3 t2 s4 s3 s2 t1 s3 s2 s1 t0 s2 s1 s0
  let d2 := det4 s6 t3 s4 s3 s5 t2 s3 s2 s4 t1 s2 s1 s3 t0 s1 s0
  let d1 := det4 s6 s5 t3 s3 s5 s4 t2 s2 s4 s3 t1 s1 s3 s2 t0 s0
  let d0 := det4 s6 s5 s4 t3 s5 s4 s3 t2 s4 s3 s2 t1 s3 s2 s1 t0
  some [d3 / dm, d2 / dm, d1 / dm, d0 / dm]

/-- Model of np.poly1d evaluation (gpxfixer.py lines 70 and 132): Horner
evaluation of a coefficient list given highest degree first. -/
def poly1d (c : List ℚ) (x : ℚ) : ℚ := c.foldl (fun acc a => acc * x + a) 0

/-- Python string prefixing in TrackPoint.add_extensions (lines 71-72): a
channel name not already starting with the namespace marker gets it
prepended. -/
def ns3Name (s : String) : String := if s.take 4 = "ns3:" then s else "ns3:" ++ s

/-- Python round to the nearest integer, ties to even (the rounding used at
gpxfixer.py line 76). -/
def pyRound (q : ℚ) : ℤ :=
  if q - ⌊q⌋ < 1 / 2 then ⌊q⌋
  else if 1 / 2 < q - ⌊q⌋ then ⌊q⌋ + 1
  else if ⌊q⌋ % 2 = 0 then ⌊q⌋ else ⌊q⌋ + 1

/-- Python round(x, 1) (gpxfixer.py line 74) modelled exactly: round half to
even at one decimal place. -/
def round1 (q : ℚ) : ℚ := (pyRound (q * 10) : ℚ) / 10

/-- Channel children of the freshly built ns3:TrackPointExtension group in
TrackPoint.add_extensions (gpxfixer.py lines 69-79): every fitted channel is
evaluated at the point ndistance, namespaced, and rounded — one decimal for the
temperature channel atemp, nearest integer for every other channel. -/
def mkNewChildren (polyfit : List (String × List ℚ)) (nd : ℚ) : List (String × ℚ) :=
  polyfit.map fun ep =>
    let v := poly1d ep.2 nd
    let ext := ns3Name ep.1
    (ext, if ext.drop 4 = "atemp" then round1 v else (pyRound v : ℚ))

/-- TrackPoint.add_extensions (gpxfixer.py lines 65-83): build a new
extensions element holding a single ns3:TrackPointExtension group with the
synthesized channels and install it on the document point, replacing the old
extensions element when one exists and appending otherwise — either way the
point ends up with exactly the new subtree. -/
def TrackPoint.add_extensions (polyfit : List (String × List ℚ)) (pt : TrackPoint) : TrackPoint :=
  { pt with docExt := some [("ns3:TrackPointExtension", mkNewChildren polyfit pt.ndistance)] }

/-- State of one GpxFile after __init__ (gpxfixer.py lines 107-134). -/
structure GpxState where
  pts : List TrackPoint
  total_seconds : ℚ
  total_distance : ℚ
  values : Values
  polyfit : List (String × List ℚ)
  total_still_time : ℚ
deriving DecidableEq

/-- Failure modes of GpxFile.__init__, as Python exceptions: IndexError from
self.pts[-1] on an empty point list (line 116); ZeroDivisionError from the
nelapsed division by total_seconds (line 44 via line 120), which is
pure-Python float division; LinAlgError from np.polyfit (line 131) on a
channel whose recorded abscissas are all 0.  The ndistance division by
total_distance (line 63) is np.float64 division and never raises — a zero
total distance silently yields NaN fractions.  The source defines no error
classes of its own. -/
inductive InitErr where
  | indexError
  | zeroDivisionError
  | linAlgError
deriving DecidableEq

/-- Adjustment of one point from its predecessor, as performed inside the
first loop of GpxFile.__init__ (lines 118-120): adjust_distance then
adjust_time. -/
def adjust1 (d : DistFn) (origin : TrackPoint) (total_seconds : ℚ)
    (last cur : TrackPoint) : TrackPoint :=
  TrackPoint.adjust_time origin last total_seconds (TrackPoint.adjust_distance d last cur)

/-- The first loop of GpxFile.__init__ over pts[1:], threading the (mutated)
predecessor exactly as the Python in-place updates do. -/
def adjustRest (d : DistFn) (origin : TrackPoint) (total_seconds : ℚ) :
    TrackPoint → List TrackPoint → List TrackPoint
  | _, [] => []
  | prev, cur :: rest =>
      let cur' := adjust1 d origin total_seconds prev cur
      cur' :: adjustRest d origin total_seconds cur' rest

/-- The second loop of GpxFile.__init__ over pts[1:] (lines 122-123),
threading the predecessor whose accumulated_distance was just written. -/
def ndistRest (total_distance : ℚ) : TrackPoint → List TrackPoint → List TrackPoint
  | _, [] => []
  | prev, cur :: rest =>
      let cur' := TrackPoint.set_ndistance prev total_distance cur
      cur' :: ndistRest total_distance cur' rest

/-- total_seconds of GpxFile.__init__ (line 116): time of the last point minus
time of the first point, computed here from the raw input since parsing leaves
timestamps unchanged. -/
def total_seconds_in (q0 : PtIn) (qrest : List PtIn) : ℚ :=
  (qrest.getLast?.getD q0).time - q0.time

/-- The points of the track after the first (adjustment) loop. -/
def adjustedRest (d : DistFn) (q0 : PtIn) (qrest : List PtIn) : List TrackPoint :=
  adjustRest d (initPoint q0) (total_seconds_in q0 qrest) (initPoint q0) (qrest.map initPoint)

/-- total_distance of GpxFile.__init__ (line 121): the sum of the distance
field over all points; the first point always contributes 0. -/
def total_distance_in (d : DistFn) (q0 : PtIn) (qrest : List PtIn) : ℚ :=
  (initPoint q0).distance + ((adjustedRest d q0 qrest).map TrackPoint.distance).sum

/-- The fully normalized point list: the first point keeps all computed fields
at 0 (both __init__ loops skip it), the rest carry accumulated and normalized
distances. -/
def trackPts (d : DistFn) (q0 : PtIn) (qrest : List PtIn) : List TrackPoint :=
  initPoint q0 :: ndistRest (total_distance_in d q0 qrest) (initPoint q0) (adjustedRest d q0 qrest)

/-- The per-channel sample dictionary built by the append_fit_values loop of
GpxFile.__init__ (lines 125-127) over the normalized points. -/
def trackValues (d : DistFn) (q0 : PtIn) (qrest : List PtIn) : Values :=
  (trackPts d q0 qrest).foldl (fun vs pt => pt.append_fit_values vs) []

/-- The polyfit loop of GpxFile.__init__ (lines 129-132): one np.polyfit call
per observed channel, in dictionary (insertion) order; the first channel whose
abscissas are all 0 aborts the whole construction with LinAlgError. -/
def buildPolyfit : Values → Except InitErr (List (String × List ℚ))
  | [] => .ok []
  | v :: rest =>
      match np_polyfit3 v.2.1 v.2.2 with
      | none => .error .linAlgError
      | some c =>
          match buildPolyfit rest with
          | .error e => .error e
          | .ok ps => .ok ((v.1, c) :: ps)

/-- The success result of GpxFile.__init__ (lines 107-134): normalized points,
track totals, per-channel samples (x = nelapsed), per-channel cubic fits, and
the stationary-time total. -/
def buildState (d : DistFn) (q0 : PtIn) (qrest : List PtIn)
    (polyfit : List (String × List ℚ)) : GpxState :=
  { pts := trackPts d q0 qrest,
    total_seconds := total_seconds_in q0 qrest,
    total_distance := total_distance_in d q0 qrest,
    values := trackValues d q0 qrest,
    polyfit := polyfit,
    total_still_time := ((trackPts d q0 qrest).map TrackPoint.calc_still_time).sum }

/-- GpxFile.__init__ (gpxfixer.py lines 107-134) with its Python failure modes
made explicit: an empty point list hits self.pts[-1] (IndexError); with at
least two points, a zero total duration makes the nelapsed division raise
ZeroDivisionError (pure-Python float division); a channel whose recorded
abscissas are all 0 makes np.polyfit raise LinAlgError.  A zero total
distance does NOT abort construction: the np.float64 ndistance division
silently produces NaN fractions and __init__ returns normally.  Nothing
inspects per-channel sample counts. -/
def gpxInit (d : DistFn) (input : List PtIn) : Except InitErr GpxState :=
  match input with
  | [] => .error .indexError
  | q0 :: qrest =>
      if qrest ≠ [] ∧ total_seconds_in q0 qrest = 0 then .error .zeroDivisionError
      else
        match buildPolyfit (trackValues d q0 qrest) with
        | .error e => .error e
        | .ok pf => .ok (buildState d q0 qrest pf)

/-- Fixed fallback input point, used only to give total meaning to getD
lookups in statements. -/
def dummyIn : PtIn := { lat := 0, lon := 0, time := 0, ele := 0, ext := none }

/-- Fixed fallback track point for getD lookups in statements. -/
def dummyPt : TrackPoint := initPoint dummyIn

/-- The constructed state, or a fixed fallback when construction failed; lets
closed statements about successful runs avoid binders. -/
def initD (d : DistFn) (input : List PtIn) : GpxState :=
  match gpxInit d input with
  | .ok g => g
  | .error _ => buildState d dummyIn [] []

/-- Whether a pipeline step succeeded. -/
def isOkB {α : Type} (r : Except InitErr α) : Bool :=
  match r with
  | .ok _ => true
  | .error _ => false

/-- GpxFile.start_time (gpxfixer.py lines 153-154): timestamp of the first
point.  States coming out of gpxInit always have a nonempty point list. -/
def GpxState.start_time (g : GpxState) : ℚ := (g.pts.headD dummyPt).time

/-- GpxFile.fix_time (gpxfixer.py lines 140-145): rewrite every point
timestamp from the origin timestamp of the original (source) track and its
effective moving duration total_seconds - total_still_time. -/
def GpxState.fix_time (self original : GpxState) : GpxState :=
  { self with
    pts := self.pts.map
      (TrackPoint.fix_time original.start_time (original.total_seconds - original.total_still_time)) }

/-- GpxFile.add_extensions (gpxfixer.py lines 136-138): synthesize the fitted
channels of the original (source) track onto every point of this track. -/
def GpxState.add_extensions (self original : GpxState) : GpxState :=
  { self with pts := self.pts.map (TrackPoint.add_extensions original.polyfit) }

/-- Consecutive pairs of a list, pairing every element after the first with
its predecessor. -/
def consecPairs (l : List PtIn) : List (PtIn × PtIn) := l.zip l.tail

/-- Total duration of the raw input track: time of the last point minus time
of the first point (0 when the track is empty). -/
def raw_total_seconds (input : List PtIn) : ℚ :=
  (input.getLast?.getD dummyIn).time - (input.headD dummyIn).time

/-- Total distance of the raw input track under the distance function d: the
sum of consecutive-pair distances. -/
def raw_total_distance (d : DistFn) (input : List PtIn) : ℚ :=
  ((consecPairs input).map (fun ab => d ab.1.lat ab.1.lon ab.2.lat ab.2.lon)).sum

/-- First-match lookup in the channel-sample dictionary. -/
def lookupValues : Values → String → Option (List ℚ × List ℚ)
  | [], _ => none
  | v :: rest, n => if v.1 = n then some v.2 else lookupValues rest n

/-- Abscissa samples recorded for one channel (empty when the channel was
never seen). -/
def valuesX (vals : Values) (name : String) : List ℚ :=
  ((lookupValues vals name).getD ([], [])).1

/-- Ordinate samples recorded for one channel. -/
def valuesY (vals : Values) (name : String) : List ℚ :=
  ((lookupValues vals name).getD ([], [])).2

/-- First-match lookup in the fitted-polynomial dictionary. -/
def lookupPoly : List (String × List ℚ) → String → Option (List ℚ)
  | [], _ => none
  | v :: rest, n => if v.1 = n then some v.2 else lookupPoly rest n

/-- The stationary-time contribution of one consecutive raw point pair, as the
specification states it: instantaneous rate is the distance between the two
points divided by the duration between them, taken as 0 when the duration is
0; the entire duration counts exactly when the rate is strictly below the
1.5 m/s threshold. -/
def claimStillContribution (d : DistFn) (q q' : PtIn) : ℚ :=
  let dur := q'.time - q.time
  let rate := if dur = 0 then 0 else d q.lat q.lon q'.lat q'.lon / dur
  if rate < 3 / 2 then dur else 0

/-! Basic field lemmas for the per-point updates. -/

@[simp] lemma adjust1_lat (d : DistFn) (o : TrackPoint) (ts : ℚ) (a b : TrackPoint) :
    (adjust1 d o ts a b).lat = b.lat := rfl

@[simp] lemma adjust1_lon (d : DistFn) (o : TrackPoint) (ts : ℚ) (a b : TrackPoint) :
    (adjust1 d o ts a b).lon = b.lon := rfl

@[simp] lemma adjust1_time (d : DistFn) (o : TrackPoint) (ts : ℚ) (a b : TrackPoint) :
    (adjust1 d o ts a b).time = b.time := rfl

@[simp] lemma adjust1_ele (d : DistFn) (o : TrackPoint) (ts : ℚ) (a b : TrackPoint) :
    (adjust1 d o ts a b).ele = b.ele := rfl

@[simp] lemma adjust1_extensions (d : DistFn) (o : TrackPoint) (ts : ℚ) (a b : TrackPoint) :
    (adjust1 d o ts a b).extensions = b.extensions := rfl

@[simp] lemma adjust1_docExt (d : DistFn) (o : TrackPoint) (ts : ℚ) (a b : TrackPoint) :
    (adjust1 d o ts a b).docExt = b.docExt := rfl

@[simp] lemma adjust1_distance (d : DistFn) (o : TrackPoint) (ts : ℚ) (a b : TrackPoint) :
    (adjust1 d o ts a b).distance = d a.lat a.lon b.lat b.lon := rfl

@[simp] lemma adjust1_elapsed (d : DistFn) (o : TrackPoint) (ts : ℚ) (a b : TrackPoint) :
    (adjust1 d o ts a b).elapsed = b.time - o.time := rfl

@[simp] lemma adjust1_nelapsed (d : DistFn) (o : TrackPoint) (ts : ℚ) (a b : TrackPoint) :
    (adjust1 d o ts a b).nelapsed = (b.time - o.time) / ts := rfl

@[simp] lemma adjust1_since_last (d : DistFn) (o : TrackPoint) (ts : ℚ) (a b : TrackPoint) :
    (adjust1 d o ts a b).since_last = b.time - a.time := rfl

@[simp] lemma set_ndistance_extensions (last : TrackPoint) (td : ℚ) (cur : TrackPoint) :
    (TrackPoint.set_ndistance last td cur).extensions = cur.extensions := rfl

@[simp] lemma set_ndistance_acc (last : TrackPoint) (td : ℚ) (cur : TrackPoint) :
    (TrackPoint.set_ndistance last td cur).accumulated_distance
      = cur.distance + last.accumulated_distance := rfl

@[simp] lemma set_ndistance_nd (last : TrackPoint) (td : ℚ) (cur : TrackPoint) :
    (TrackPoint.set_ndistance last td cur).ndistance
      = (cur.distance + last.accumulated_distance) / td := rfl

/-- The adjustment of a point only reads the immutable identity fields of its
predecessor. -/
lemma adjust1_congr (d : DistFn) (o : TrackPoint) (ts : ℚ) {a a' : TrackPoint} (b : TrackPoint)
    (h1 : a.lat = a'.lat) (h2 : a.lon = a'.lon) (h3 : a.time = a'.time) :
    adjust1 d o ts a b = adjust1 d o ts a' b := by
  simp only [adjust1, TrackPoint.adjust_time, TrackPoint.adjust_distance, h1, h2, h3]

/-! List helper lemmas. -/

/-- getD lookup through a map, for an in-range index. -/
lemma getD_map_of_lt {α β : Type} (f : α → β) (l : List α) (i : ℕ) (h : i < l.length)
    (da : α) (db : β) : (l.map f).getD i db = f (l.getD i da) := by
  rw [List.getD_eq_get?, List.getD_eq_get?, List.get?_map, List.get?_eq_get h]
  rfl

/-- Fallback-insensitive getLast lookup on a nonempty list. -/
lemma getLast?_getD_cons {α : Type} : ∀ (l : List α) (q0 a : α),
    ((q0 :: l).getLast?.getD a) = l.getLast?.getD q0
  | [], _, _ => rfl
  | c :: t, q0, a => by
      rw [List.getLast?_cons_cons, getLast?_getD_cons t c a, getLast?_getD_cons t c q0]

/-! Characterization of the adjustment loop. -/

/-- The first loop of __init__ is a map over consecutive pairs of the parsed
points: threading the mutated predecessor is invisible because adjustment only
reads immutable predecessor fields. -/
lemma adjustRest_eq (d : DistFn) (o : TrackPoint) (ts : ℚ) :
    ∀ (l : List TrackPoint) (prev : TrackPoint),
      adjustRest d o ts prev l
        = ((prev :: l).zip l).map (fun ab => adjust1 d o ts ab.1 ab.2)
  | [], prev => by simp [adjustRest]
  | cur :: l, prev => by
      show adjust1 d o ts prev cur
            :: adjustRest d o ts (adjust1 d o ts prev cur) l = _
      rw [adjustRest_eq d o ts l (adjust1 d o ts prev cur)]
      cases l with
      | nil => simp
      | cons c l' =>
          simp only [List.zip_cons_cons, List.map_cons, List.cons.injEq, true_and]
          exact ⟨adjust1_congr d o ts c rfl rfl rfl, trivial⟩

lemma adjustRest_length (d : DistFn) (o : TrackPoint) (ts : ℚ)
    (l : List TrackPoint) (prev : TrackPoint) :
    (adjustRest d o ts prev l).length = l.length := by
  rw [adjustRest_eq, List.length_map, List.length_zip, List.length_cons]
  omega

/-! Characterization of the normalization loop. -/

/-- Fields untouched by set_ndistance pass through the second loop. -/
lemma ndistRest_map {α : Type} (td : ℚ) (f : TrackPoint → α)
    (hf : ∀ (prev cur : TrackPoint), f (TrackPoint.set_ndistance prev td cur) = f cur) :
    ∀ (l : List TrackPoint) (prev : TrackPoint), (ndistRest td prev l).map f = l.map f
  | [], _ => rfl
  | cur :: l, prev => by
      show f (TrackPoint.set_ndistance prev td cur)
            :: (ndistRest td (TrackPoint.set_ndistance prev td cur) l).map f = _
      rw [hf, ndistRest_map td f hf l]
      rfl

lemma ndistRest_length (td : ℚ) :
    ∀ (l : List TrackPoint) (prev : TrackPoint), (ndistRest td prev l).length = l.length
  | [], _ => rfl
  | cur :: l, prev => by
      show (ndistRest td (TrackPoint.set_ndistance prev td cur) l).length + 1 = l.length + 1
      rw [ndistRest_length td l]

/-- Every point written by the second loop has its ndistance equal to its
accumulated_distance divided by the total distance. -/
lemma ndistRest_nd (td : ℚ) :
    ∀ (l : List TrackPoint) (prev pt : TrackPoint), pt ∈ ndistRest td prev l →
      pt.ndistance = pt.accumulated_distance / td
  | [], _, _, h => by simp [ndistRest] at h
  | cur :: l, prev, pt, h => by
      rw [show ndistRest td prev (cur :: l)
            = TrackPoint.set_ndistance prev td cur
              :: ndistRest td (TrackPoint.set_ndistance prev td cur) l from rfl] at h
      rcases List.mem_cons.mp h with h | h
      · subst h; rfl
      · exact ndistRest_nd td l _ pt h

/-- Running sums with a starting offset; the shape of the accumulated
distances produced by the second loop. -/
def accScan (a : ℚ) : List ℚ → List ℚ
  | [] => []
  | x :: xs => (x + a) :: accScan (x + a) xs

lemma ndistRest_map_acc (td : ℚ) :
    ∀ (l : List TrackPoint) (prev : TrackPoint),
      (ndistRest td prev l).map TrackPoint.accumulated_distance
        = accScan prev.accumulated_distance (l.map TrackPoint.distance)
  | [], _ => rfl
  | cur :: l, prev => by
      show (cur.distance + prev.accumulated_distance)
            :: (ndistRest td (TrackPoint.set_ndistance prev td cur) l).map
                TrackPoint.accumulated_distance = _
      rw [ndistRest_map_acc td l (TrackPoint.set_ndistance prev td cur)]
      rfl

lemma accScan_getLast (a : ℚ) : ∀ (xs : List ℚ), ((accScan a xs).getLast?.getD a) = a + xs.sum
  | [] => by simp [accScan]
  | x :: xs => by
      show (((x + a) :: accScan (x + a) xs).getLast?.getD a) = _
      rw [getLast?_getD_cons, accScan_getLast (x + a) xs, List.sum_cons]
      ring

lemma accScan_chain (a : ℚ) : ∀ (xs : List ℚ), (∀ x ∈ xs, 0 ≤ x) →
    List.Chain' (· ≤ ·) (a :: accScan a xs)
  | [], _ => by simp [accScan]
  | x :: xs, h => by
      show List.Chain' (· ≤ ·) (a :: (x + a) :: accScan (x + a) xs)
      rw [List.chain'_cons]
      refine ⟨by have := h x (List.mem_cons_self x xs); linarith, ?_⟩
      exact accScan_chain (x + a) xs (fun y hy => h y (List.mem_cons_of_mem x hy))

/-! Characterization of the assembled track. -/

lemma adjustedRest_eq (d : DistFn) (q0 : PtIn) (qrest : List PtIn) :
    adjustedRest d q0 qrest
      = (consecPairs (q0 :: qrest)).map
          (fun ab => adjust1 d (initPoint q0) (total_seconds_in q0 qrest)
            (initPoint ab.1) (initPoint ab.2)) := by
  unfold adjustedRest consecPairs
  rw [adjustRest_eq]
  rw [show (initPoint q0 :: List.map initPoint qrest) = (q0 :: qrest).map initPoint from rfl]
  rw [List.zip_map, List.map_map]
  rfl

lemma consecPairs_snd (q0 : PtIn) (qrest : List PtIn) :
    (consecPairs (q0 :: qrest)).map Prod.snd = qrest :=
  List.map_snd_zip (q0 :: qrest) qrest (by simp)

lemma adjustedRest_map_distance (d : DistFn) (q0 : PtIn) (qrest : List PtIn) :
    (adjustedRest d q0 qrest).map TrackPoint.distance
      = (consecPairs (q0 :: qrest)).map (fun ab => d ab.1.lat ab.1.lon ab.2.lat ab.2.lon) := by
  rw [adjustedRest_eq, List.map_map]
  rfl

lemma adjustedRest_map_pair (d : DistFn) (q0 : PtIn) (qrest : List PtIn) :
    (adjustedRest d q0 qrest).map (fun pt => (pt.distance, pt.since_last))
      = (consecPairs (q0 :: qrest)).map
          (fun ab => (d ab.1.lat ab.1.lon ab.2.lat ab.2.lon, ab.2.time - ab.1.time)) := by
  rw [adjustedRest_eq, List.map_map]
  rfl

lemma adjustedRest_map_extensions (d : DistFn) (q0 : PtIn) (qrest : List PtIn) :
    (adjustedRest d q0 qrest).map TrackPoint.extensions
      = qrest.map (fun q => parse_extensions q.ext) := by
  rw [adjustedRest_eq, List.map_map]
  rw [show (TrackPoint.extensions
        ∘ fun ab : PtIn × PtIn => adjust1 d (initPoint q0) (total_seconds_in q0 qrest)
            (initPoint ab.1) (initPoint ab.2))
      = ((fun q => parse_extensions q.ext) ∘ Prod.snd) from rfl]
  rw [← List.map_map, consecPairs_snd]

lemma adjustedRest_length (d : DistFn) (q0 : PtIn) (qrest : List PtIn) :
    (adjustedRest d q0 qrest).length = qrest.length := by
  unfold adjustedRest
  rw [adjustRest_length, List.length_map]

lemma trackPts_length (d : DistFn) (q0 : PtIn) (qrest : List PtIn) :
    (trackPts d q0 qrest).length = qrest.length + 1 := by
  unfold trackPts
  rw [List.length_cons, ndistRest_length, adjustedRest_length]

/-! Totals expressed over the raw input. -/

lemma total_seconds_in_eq (q0 : PtIn) (qrest : List PtIn) :
    total_seconds_in q0 qrest = raw_total_seconds (q0 :: qrest) := by
  unfold total_seconds_in raw_total_seconds
  rw [getLast?_getD_cons]
  rfl

lemma total_distance_in_eq (d : DistFn) (q0 : PtIn) (qrest : List PtIn) :
    total_distance_in d q0 qrest = raw_total_distance d (q0 :: qrest) := by
  unfold total_distance_in raw_total_distance
  rw [adjustedRest_map_distance]
  show 0 + _ = _
  rw [zero_add]

/-! Characterization of the per-channel sample dictionary. -/

lemma lookupValues_add_sample (n m : String) (x y : ℚ) :
    ∀ vs : Values,
      lookupValues (add_sample vs n x y) m
        = if n = m then some (valuesX vs m ++ [x], valuesY vs m ++ [y])
          else lookupValues vs m
  | [] => by
      by_cases h : n = m <;> simp [add_sample, lookupValues, valuesX, valuesY, h]
  | v :: rest => by
      obtain ⟨k, xs, ys⟩ := v
      by_cases h1 : k = n
      · subst h1
        by_cases h2 : k = m
        · subst h2
          simp [add_sample, lookupValues, valuesX, valuesY]
        · simp [add_sample, lookupValues, valuesX, valuesY, h2]
      · by_cases h2 : k = m
        · subst h2
          have h3 : ¬(n = k) := fun e => h1 e.symm
          simp [add_sample, lookupValues, valuesX, valuesY, h1, h3]
        · simp [add_sample, lookupValues, valuesX, valuesY, h1, h2,
            lookupValues_add_sample n m x y rest]

lemma valuesX_add_sample (n m : String) (x y : ℚ) (vs : Values) :
    valuesX (add_sample vs n x y) m = valuesX vs m ++ (if n = m then [x] else []) := by
  by_cases h : n = m <;>
    simp [valuesX, lookupValues_add_sample, h]

lemma valuesX_foldl_exts (x : ℚ) (m : String) :
    ∀ (exts : List (String × ℚ)) (vs : Values),
      valuesX (exts.foldl (fun vs e => add_sample vs e.1 x e.2) vs) m
        = valuesX vs m ++ exts.filterMap (fun e => if e.1 = m then some x else none)
  | [], vs => by simp
  | e :: exts, vs => by
      simp only [List.foldl_cons, List.filterMap_cons]
      rw [valuesX_foldl_exts x m exts, valuesX_add_sample]
      by_cases h : e.1 = m <;> simp [h]

lemma valuesX_foldl_pts (m : String) :
    ∀ (pts : List TrackPoint) (vs : Values),
      valuesX (pts.foldl (fun vs pt => pt.append_fit_values vs) vs) m
        = valuesX vs m
          ++ pts.bind (fun pt =>
              pt.extensions.filterMap (fun e => if e.1 = m then some pt.nelapsed else none))
  | [], vs => by simp
  | pt :: pts, vs => by
      simp only [List.foldl_cons, List.cons_bind]
      rw [valuesX_foldl_pts m pts]
      show valuesX (pt.extensions.foldl (fun vs e => add_sample vs e.1 pt.nelapsed e.2) vs) m
            ++ _ = _
      rw [valuesX_foldl_exts]
      rw [List.append_assoc]

lemma foldl_append_fit_empty :
    ∀ (pts : List TrackPoint), (∀ pt ∈ pts, pt.extensions = []) →
      ∀ vs : Values, pts.foldl (fun vs pt => pt.append_fit_values vs) vs = vs
  | [], _, vs => rfl
  | pt :: pts, h, vs => by
      rw [List.foldl_cons]
      rw [show pt.append_fit_values vs
            = pt.extensions.foldl (fun vs e => add_sample vs e.1 pt.nelapsed e.2) vs from rfl]
      rw [h pt (List.mem_cons_self pt pts)]
      exact foldl_append_fit_empty pts (fun p hp => h p (List.mem_cons_of_mem pt hp)) vs

lemma add_sample_ne_nil : ∀ (vs : Values) (n : String) (x y : ℚ), add_sample vs n x y ≠ []
  | [], n, x, y => by simp [add_sample]
  | v :: rest, n, x, y => by
      unfold add_sample
      split_ifs <;> simp

lemma foldl_add_sample_ne_nil (x : ℚ) :
    ∀ (exts : List (String × ℚ)) (vs : Values), vs ≠ [] ∨ exts ≠ [] →
      exts.foldl (fun vs e => add_sample vs e.1 x e.2) vs ≠ []
  | [], vs, h => by
      rcases h with h | h
      · exact h
      · exact absurd rfl h
  | e :: rest, vs, _ =>
      foldl_add_sample_ne_nil x rest (add_sample vs e.1 x e.2)
        (Or.inl (add_sample_ne_nil vs e.1 x e.2))

/-- Recording a sample with abscissa 0 preserves the all-zero-abscissa
property of the dictionary. -/
lemma add_sample_zero_mem :
    ∀ (vs : Values) (n : String) (y : ℚ),
      (∀ v ∈ vs, ∀ x ∈ v.2.1, x = 0) →
      ∀ v ∈ add_sample vs n 0 y, ∀ x ∈ v.2.1, x = 0
  | [], n, y, _, v, hv => by
      simp only [add_sample, List.mem_singleton] at hv
      subst hv
      intro x hx
      simpa using hx
  | w :: rest, n, y, hall, v, hv => by
      unfold add_sample at hv
      by_cases h1 : w.1 = n
      · rw [if_pos h1] at hv
        rcases List.mem_cons.mp hv with h2 | h2
        · subst h2
          intro x hx
          rcases List.mem_append.mp hx with h3 | h3
          · exact hall w (List.mem_cons_self w rest) x h3
          · simpa using h3
        · exact hall v (List.mem_cons_of_mem w h2)
      · rw [if_neg h1] at hv
        rcases List.mem_cons.mp hv with h2 | h2
        · subst h2
          exact hall v (List.mem_cons_self v rest)
        · exact add_sample_zero_mem rest n y
            (fun u hu => hall u (List.mem_cons_of_mem w hu)) v h2

/-- A whole channel group recorded at abscissa 0 leaves every abscissa list
all-zero. -/
lemma foldl_add_sample_zero :
    ∀ (exts : List (String × ℚ)) (vs : Values),
      (∀ v ∈ vs, ∀ x ∈ v.2.1, x = 0) →
      ∀ v ∈ exts.foldl (fun vs e => add_sample vs e.1 0 e.2) vs, ∀ x ∈ v.2.1, x = 0
  | [], _, hall, v, hv => hall v hv
  | e :: rest, vs, hall, v, hv =>
      foldl_add_sample_zero rest (add_sample vs e.1 0 e.2)
        (add_sample_zero_mem vs e.1 e.2 hall) v hv

/-- np.polyfit aborts the fit loop on the first channel whose abscissas are
all 0. -/
lemma buildPolyfit_allzero (vs : Values) (hne : vs ≠ [])
    (hall : ∀ v ∈ vs, ∀ x ∈ v.2.1, x = 0) :
    buildPolyfit vs = .error .linAlgError := by
  cases vs with
  | nil => exact absurd rfl hne
  | cons v rest =>
      have hnp : np_polyfit3 v.2.1 v.2.2 = none := by
        unfold np_polyfit3
        rw [if_pos (hall v (List.mem_cons_self v rest))]
      show (match np_polyfit3 v.2.1 v.2.2 with
            | none => Except.error InitErr.linAlgError
            | some c =>
                match buildPolyfit rest with
                | .error e => .error e
                | .ok ps => .ok ((v.1, c) :: ps)) = Except.error InitErr.linAlgError
      rw [hnp]

/-! Shape of a successful construction. -/

lemma buildState_pts (d : DistFn) (q0 : PtIn) (qrest : List PtIn)
    (pf : List (String × List ℚ)) :
    (buildState d q0 qrest pf).pts = trackPts d q0 qrest := rfl

lemma buildState_total_seconds (d : DistFn) (q0 : PtIn) (qrest : List PtIn)
    (pf : List (String × List ℚ)) :
    (buildState d q0 qrest pf).total_seconds = total_seconds_in q0 qrest := rfl

lemma buildState_total_distance (d : DistFn) (q0 : PtIn) (qrest : List PtIn)
    (pf : List (String × List ℚ)) :
    (buildState d q0 qrest pf).total_distance = total_distance_in d q0 qrest := rfl

lemma buildState_values (d : DistFn) (q0 : PtIn) (qrest : List PtIn)
    (pf : List (String × List ℚ)) :
    (buildState d q0 qrest pf).values = trackValues d q0 qrest := rfl

lemma buildState_polyfit (d : DistFn) (q0 : PtIn) (qrest : List PtIn)
    (pf : List (String × List ℚ)) :
    (buildState d q0 qrest pf).polyfit = pf := rfl

lemma buildState_still (d : DistFn) (q0 : PtIn) (qrest : List PtIn)
    (pf : List (String × List ℚ)) :
    (buildState d q0 qrest pf).total_still_time
      = ((trackPts d q0 qrest).map TrackPoint.calc_still_time).sum := rfl

/-- The fit loop keeps exactly the channels of the sample dictionary, in
order. -/
lemma buildPolyfit_keys : ∀ (vs : Values) (pf : List (String × List ℚ)),
    buildPolyfit vs = .ok pf → pf.map Prod.fst = vs.map Prod.fst
  | [], pf, h => by
      rw [← Except.ok.inj h]
      rfl
  | v :: rest, pf, h => by
      unfold buildPolyfit at h
      split at h
      · exact absurd h (by simp)
      · rename_i c hnp
        split at h
        · exact absurd h (by simp)
        · rename_i ps hb
          rw [← Except.ok.inj h, List.map_cons, List.map_cons,
            buildPolyfit_keys rest ps hb]

/-- Reduction of gpxInit on a nonempty input. -/
lemma gpxInit_cons (d : DistFn) (q0 : PtIn) (qrest : List PtIn) :
    gpxInit d (q0 :: qrest)
      = if qrest ≠ [] ∧ total_seconds_in q0 qrest = 0 then .error .zeroDivisionError
        else
          match buildPolyfit (trackValues d q0 qrest) with
          | .error e => .error e
          | .ok pf => .ok (buildState d q0 qrest pf) := rfl

/-- Inversion of a successful GpxFile.__init__: the input was nonempty, every
channel fit succeeded, the state is buildState, and when the track has a
second point the total duration is nonzero (the ZeroDivisionError guard did
not fire).  Nothing is learned about the total distance: a zero total
distance does not abort construction. -/
lemma gpxInit_ok_inv {d : DistFn} {input : List PtIn} {g : GpxState}
    (h : gpxInit d input = .ok g) :
    ∃ q0 qrest pf, input = q0 :: qrest
      ∧ buildPolyfit (trackValues d q0 qrest) = .ok pf
      ∧ g = buildState d q0 qrest pf
      ∧ (qrest ≠ [] → total_seconds_in q0 qrest ≠ 0) := by
  cases input with
  | nil => exact absurd h (by simp [gpxInit])
  | cons q0 qrest =>
      rw [gpxInit_cons] at h
      by_cases h1 : qrest ≠ [] ∧ total_seconds_in q0 qrest = 0
      · rw [if_pos h1] at h
        exact absurd h (by simp)
      · rw [if_neg h1] at h
        cases hb : buildPolyfit (trackValues d q0 qrest) with
        | error e =>
            rw [hb] at h
            exact absurd h (by simp)
        | ok pf =>
            rw [hb] at h
            have h' : Except.ok (buildState d q0 qrest pf) = Except.ok g := h
            exact ⟨q0, qrest, pf, rfl, hb, (Except.ok.inj h').symm,
              fun hne hts => h1 ⟨hne, hts⟩⟩

/-- Successful construction under explicit side conditions. -/
lemma gpxInit_ok_of (d : DistFn) (q0 : PtIn) (qrest : List PtIn)
    (pf : List (String × List ℚ))
    (hts : qrest = [] ∨ total_seconds_in q0 qrest ≠ 0)
    (hpf : buildPolyfit (trackValues d q0 qrest) = .ok pf) :
    gpxInit d (q0 :: qrest) = .ok (buildState d q0 qrest pf) := by
  rw [gpxInit_cons, if_neg (by tauto), hpf]

/-- Naming the successfully constructed state. -/
lemma initD_eq {d : DistFn} {input : List PtIn} {g : GpxState}
    (h : gpxInit d input = .ok g) : initD d input = g := by
  unfold initD
  rw [h]

/-! Rounding facts. -/

/-- Python round lands within half a unit of its argument. -/
lemma pyRound_abs (q : ℚ) : |(pyRound q : ℚ) - q| ≤ 1 / 2 := by
  have h0 : (⌊q⌋ : ℚ) ≤ q := Int.floor_le q
  have h1 : q < ⌊q⌋ + 1 := Int.lt_floor_add_one q
  unfold pyRound
  split_ifs with ha hb hc
  · rw [abs_sub_comm, abs_of_nonneg (by linarith)]
    linarith
  · rw [abs_of_nonneg (by push_cast; linarith)]
    push_cast
    linarith
  · rw [abs_sub_comm, abs_of_nonneg (by linarith)]
    linarith
  · rw [abs_of_nonneg (by push_cast; linarith)]
    push_cast
    linarith

/-- Python round(x, 1) lands within one twentieth of its argument. -/
lemma round1_abs (q : ℚ) : |round1 q - q| ≤ 1 / 20 := by
  have h := pyRound_abs (q * 10)
  unfold round1
  rw [show (pyRound (q * 10) : ℚ) / 10 - q = ((pyRound (q * 10) : ℚ) - q * 10) / 10 by ring]
  rw [abs_div, abs_of_nonneg (by norm_num : (0 : ℚ) ≤ 10)]
  linarith

/-! Stationary-time contribution, pointwise. -/

/-- On an adjusted point the code contribution coincides with the contribution
the specification describes, as long as the distance is nonnegative (which the
haversine distance always is).  The only divergence candidate is a negative
duration, where the code takes rate 0 and the specification takes a nonpositive
rate; both fall below the threshold. -/
lemma calc_still_pointwise (d : DistFn) (o : TrackPoint) (ts : ℚ) (q q' : PtIn)
    (hd : 0 ≤ d q.lat q.lon q'.lat q'.lon) :
    TrackPoint.calc_still_time (adjust1 d o ts (initPoint q) (initPoint q'))
      = claimStillContribution d q q' := by
  show (if (if 0 < q'.time - q.time
            then d q.lat q.lon q'.lat q'.lon / (q'.time - q.time) else 0) < (3 / 2 : ℚ)
        then q'.time - q.time else 0)
      = (if (if q'.time - q.time = 0 then 0
             else d q.lat q.lon q'.lat q'.lon / (q'.time - q.time)) < (3 / 2 : ℚ)
         then q'.time - q.time else 0)
  rcases lt_trichotomy 0 (q'.time - q.time) with hpos | hzero | hneg
  · rw [if_pos hpos, if_neg (ne_of_gt hpos)]
  · have hc1 : ¬(0 < q'.time - q.time) := by rw [← hzero]; exact lt_irrefl 0
    rw [if_neg hc1, if_pos hzero.symm]
  · have hq : d q.lat q.lon q'.lat q'.lon / (q'.time - q.time) ≤ 0 :=
      div_nonpos_iff.mpr (Or.inl ⟨hd, le_of_lt hneg⟩)
    rw [if_neg (not_lt.mpr (le_of_lt hneg)), if_neg (ne_of_lt hneg)]
    rw [if_pos (show (0 : ℚ) < 3 / 2 by norm_num),
      if_pos (show d q.lat q.lon q'.lat q'.lon / (q'.time - q.time) < 3 / 2 by linarith)]

/-! Shape of the computed fields over the whole track. -/

lemma trackPts_map_extensions (d : DistFn) (q0 : PtIn) (qrest : List PtIn) :
    (trackPts d q0 qrest).map TrackPoint.extensions
      = (q0 :: qrest).map (fun q => parse_extensions q.ext) := by
  unfold trackPts
  rw [List.map_cons, ndistRest_map _ TrackPoint.extensions (fun _ _ => rfl),
    adjustedRest_map_extensions]
  rfl

lemma trackPts_map_calc (d : DistFn) (q0 : PtIn) (qrest : List PtIn) :
    (trackPts d q0 qrest).map TrackPoint.calc_still_time
      = TrackPoint.calc_still_time (initPoint q0)
        :: (adjustedRest d q0 qrest).map TrackPoint.calc_still_time := by
  unfold trackPts
  rw [List.map_cons, ndistRest_map _ TrackPoint.calc_still_time (fun _ _ => rfl)]

lemma trackPts_map_acc (d : DistFn) (q0 : PtIn) (qrest : List PtIn) :
    (trackPts d q0 qrest).map TrackPoint.accumulated_distance
      = 0 :: accScan 0 ((adjustedRest d q0 qrest).map TrackPoint.distance) := by
  unfold trackPts
  rw [List.map_cons, ndistRest_map_acc]
  rfl

/-- With a second point present and a nonzero total distance, the last point
has position fraction exactly 1: its accumulated distance is the whole track
distance. -/
lemma last_nd_one (d : DistFn) (q0 : PtIn) (qrest : List PtIn)
    (hne : qrest ≠ []) (htd : total_distance_in d q0 qrest ≠ 0) :
    ((trackPts d q0 qrest).getLast?.getD dummyPt).ndistance = 1 := by
  unfold trackPts
  rw [getLast?_getD_cons]
  have hlen : (ndistRest (total_distance_in d q0 qrest) (initPoint q0)
      (adjustedRest d q0 qrest)).length = qrest.length := by
    rw [ndistRest_length, adjustedRest_length]
  have hL : ndistRest (total_distance_in d q0 qrest) (initPoint q0)
      (adjustedRest d q0 qrest) ≠ [] := by
    intro hnil
    rw [hnil] at hlen
    exact hne (List.eq_nil_of_length_eq_zero hlen.symm)
  obtain ⟨lastp, hlast⟩ := Option.isSome_iff_exists.mp (List.getLast?_isSome.mpr hL)
  rw [hlast]
  have hmem : lastp ∈ ndistRest (total_distance_in d q0 qrest) (initPoint q0)
      (adjustedRest d q0 qrest) := List.mem_of_getLast?_eq_some hlast
  have hacc : lastp.accumulated_distance
      = ((adjustedRest d q0 qrest).map TrackPoint.distance).sum := by
    have h1 : ((ndistRest (total_distance_in d q0 qrest) (initPoint q0)
        (adjustedRest d q0 qrest)).map TrackPoint.accumulated_distance).getLast?.getD 0
          = lastp.accumulated_distance := by
      rw [List.getLast?_map, hlast]
      rfl
    rw [ndistRest_map_acc] at h1
    rw [show (initPoint q0).accumulated_distance = 0 from rfl] at h1
    rw [accScan_getLast] at h1
    rw [← h1, zero_add]
  have htd_eq : total_distance_in d q0 qrest
      = ((adjustedRest d q0 qrest).map TrackPoint.distance).sum := by
    unfold total_distance_in
    show 0 + _ = _
    rw [zero_add]
  show lastp.ndistance = 1
  rw [ndistRest_nd _ _ _ _ hmem, hacc, ← htd_eq, div_self htd]

/-! Concrete distance functions and tracks used by counterexamples and
witnesses. -/

/-- Constant unit distance: every consecutive pair is one meter apart. -/
def dOne : DistFn := fun _ _ _ _ => 1

/-- Latitude-proportional test distance (may be negative; used only where no
nonnegativity is required). -/
def dLat : DistFn := fun la1 _ la2 _ => (la2 - la1) * 5

/-- Point constructor for test tracks: latitude, timestamp, extensions. -/
def mkPt (la t : ℚ) (ext : Option (List (String × List (String × ℚ)))) : PtIn :=
  { lat := la, lon := 0, time := t, ele := 0, ext := ext }

/-- One heart-rate channel sample. -/
def hrExt (v : ℚ) : Option (List (String × List (String × ℚ))) :=
  some [("ns3:TrackPointExtension", [("ns3:hr", v)])]

/-- One cadence channel sample. -/
def cadExt (v : ℚ) : Option (List (String × List (String × ℚ))) :=
  some [("ns3:TrackPointExtension", [("ns3:cad", v)])]

/-- Three points over 20 seconds; the middle point sits at time fraction 1/2
but position fraction 1/4 under dLat. -/
def c1Input : List PtIn :=
  [mkPt 0 0 (hrExt 100), mkPt 1 10 (hrExt 110), mkPt 4 20 (hrExt 120)]

/-- Five points; the cadence channel appears on only the first three. -/
def c2Input : List PtIn :=
  [mkPt 0 0 (cadExt 80), mkPt 1 10 (cadExt 81), mkPt 2 20 (cadExt 82),
   mkPt 3 30 none, mkPt 4 40 none]

/-- Two points with equal timestamps: total duration 0. -/
def c3aInput : List PtIn := [mkPt 0 5 none, mkPt 1 5 none]

/-- Two coincident points with distinct timestamps: total distance 0 under
dLat. -/
def c3bInput : List PtIn := [mkPt 0 0 none, mkPt 0 10 none]

/-- A single-point track carrying a channel. -/
def c4Input : List PtIn := [mkPt 0 0 (hrExt 100)]

/-- A plain two-point reference track with no extensions. -/
def refInput : List PtIn := [mkPt 0 0 none, mkPt 1 10 none]

/-! Claim C1. -/

/-- C1 counterexample: on a concrete source track the regression abscissas
recorded for the heart-rate channel are the time fractions [0, 1/2, 1], while
the position fractions are [0, 1/4, 1] — the regression abscissa is not the
position fraction the claim asserts. -/
theorem C1_counterexample :
    valuesX (initD dLat c1Input).values "ns3:hr" = [0, 1/2, 1]
    ∧ (initD dLat c1Input).pts.map TrackPoint.ndistance = [0, 1/4, 1]
    ∧ valuesX (initD dLat c1Input).values "ns3:hr"
        ≠ (initD dLat c1Input).pts.map TrackPoint.ndistance := by with_unfolding_all decide

/-- C1 amended: the recorded regression abscissa of every channel sample is
the time fraction nelapsed of the point carrying it (in point order), while
synthesis evaluates each fitted polynomial at the position fraction ndistance
of the target point; the two abscissas are distinct quantities. -/
theorem C1_amended_regression_abscissa (d : DistFn) (input : List PtIn) (g : GpxState)
    (h : gpxInit d input = .ok g) (name : String)
    (src ref : GpxState) (i : ℕ) (hi : i < ref.pts.length) :
    valuesX g.values name
      = g.pts.bind (fun pt =>
          pt.extensions.filterMap (fun e => if e.1 = name then some pt.nelapsed else none))
    ∧ ((ref.add_extensions src).pts.getD i dummyPt).docExt
      = some [("ns3:TrackPointExtension",
          mkNewChildren src.polyfit ((ref.pts.getD i dummyPt).ndistance))] := by
  constructor
  · obtain ⟨q0, qrest, pf, heq, -, hg, -⟩ := gpxInit_ok_inv h
    subst heq
    subst hg
    rw [buildState_values, buildState_pts]
    unfold trackValues
    rw [valuesX_foldl_pts]
    rfl
  · show ((ref.pts.map (TrackPoint.add_extensions src.polyfit)).getD i dummyPt).docExt = _
    rw [getD_map_of_lt _ _ i hi dummyPt dummyPt]
    rfl

/-! Claim C2. -/

/-- C2 counterexample: a channel carried by only 3 of a 5-point source track
yields a successful construction — no error is raised and the channel still
receives a (rank-deficient) fit; the claimed InsufficientDataError abort does
not happen. -/
theorem C2_counterexample :
    (valuesX (initD dLat c2Input).values "ns3:cad").length = 3
    ∧ isOkB (gpxInit dLat c2Input) = true
    ∧ lookupPoly (initD dLat c2Input).polyfit "ns3:cad" ≠ none := by with_unfolding_all decide

/-- C2 amended: no sample-count check exists and no InsufficientDataError can
be raised — construction success is characterized by the point count, the
total duration, and every per-channel np.polyfit call succeeding (which fails
only on an all-zero abscissa list, regardless of how few samples there are);
every channel of the sample dictionary receives a fit, in order.  In
particular the total distance plays no role: a zero total distance does not
abort construction. -/
theorem C2_amended_no_sample_count_check (d : DistFn) (input : List PtIn) :
    (isOkB (gpxInit d input) = true ↔
      input ≠ [] ∧ (input.tail = [] ∨ raw_total_seconds input ≠ 0)
        ∧ isOkB (buildPolyfit (trackValues d (input.headD dummyIn) input.tail)) = true)
    ∧ ∀ g : GpxState, gpxInit d input = .ok g →
        g.polyfit.map Prod.fst = g.values.map Prod.fst := by
  constructor
  · cases input with
    | nil => simp [gpxInit, isOkB]
    | cons q0 qrest =>
        simp only [List.headD_cons, List.tail_cons]
        rw [gpxInit_cons]
        constructor
        · intro h
          by_cases h1 : qrest ≠ [] ∧ total_seconds_in q0 qrest = 0
          · rw [if_pos h1] at h
            simp [isOkB] at h
          · rw [if_neg h1] at h
            refine ⟨by simp, ?_, ?_⟩
            · by_cases h0 : qrest = []
              · exact Or.inl h0
              · right
                rw [← total_seconds_in_eq]
                exact fun hts => h1 ⟨h0, hts⟩
            · cases hb : buildPolyfit (trackValues d q0 qrest) with
              | error e =>
                  rw [hb] at h
                  simp [isOkB] at h
              | ok pf => rfl
        · rintro ⟨-, hts, hpf⟩
          have hguard : ¬(qrest ≠ [] ∧ total_seconds_in q0 qrest = 0) := by
            rcases hts with h0 | h0
            · exact fun c => c.1 h0
            · rw [← total_seconds_in_eq] at h0
              exact fun c => h0 c.2
          rw [if_neg hguard]
          cases hb : buildPolyfit (trackValues d q0 qrest) with
          | error e =>
              rw [hb] at hpf
              simp [isOkB] at hpf
          | ok pf => rfl
  · intro g hg
    obtain ⟨q0, qrest, pf, heq, hpf, hgg, -⟩ := gpxInit_ok_inv hg
    subst heq
    subst hgg
    rw [buildState_polyfit, buildState_values]
    exact buildPolyfit_keys _ _ hpf

/-! Claim C3. -/

/-- C3 counterexample: with two points at the same timestamp the construction
aborts with a bare ZeroDivisionError from the time-fraction division (pure
Python float division); with two coincident points and distinct timestamps
the construction does NOT fail at all — it returns a state whose total
distance is 0 while the last point's accumulated distance is 0, so the
program's position fractions were computed as np.float64 0.0/0.0, i.e. set
silently to NaN.  No DegenerateTrackError exists in the code. -/
theorem C3_counterexample :
    gpxInit dLat c3aInput = .error .zeroDivisionError
    ∧ isOkB (gpxInit dLat c3bInput) = true
    ∧ (initD dLat c3bInput).total_distance = 0
    ∧ ((initD dLat c3bInput).pts.getLast?.getD dummyPt).accumulated_distance = 0 := by
  with_unfolding_all decide

/-- C3 amended: on a track with at least two points, a zero total duration
makes construction fail with the unhandled ZeroDivisionError of the nelapsed
division (pure-Python float arithmetic); a zero total distance, however, is
not prevented and does not fail — provided the channel fits succeed,
construction returns normally with total distance 0, and the np.float64
ndistance divisions were 0.0/0.0, silently producing NaN position fractions
with only a RuntimeWarning.  No DegenerateTrackError exists. -/
theorem C3_amended_degenerate_tracks (d : DistFn) (input : List PtIn)
    (h2 : input.tail ≠ []) :
    (raw_total_seconds input = 0 → gpxInit d input = .error .zeroDivisionError)
    ∧ (raw_total_seconds input ≠ 0 → raw_total_distance d input = 0 →
        isOkB (buildPolyfit (trackValues d (input.headD dummyIn) input.tail)) = true →
        isOkB (gpxInit d input) = true ∧ (initD d input).total_distance = 0) := by
  cases input with
  | nil => simp at h2
  | cons q0 qrest =>
      have h0 : qrest ≠ [] := by simpa using h2
      simp only [List.headD_cons, List.tail_cons]
      constructor
      · intro hts
        rw [gpxInit_cons,
          if_pos ⟨h0, by rw [total_seconds_in_eq]; exact hts⟩]
      · intro hts htd hpf
        cases hb : buildPolyfit (trackValues d q0 qrest) with
        | error e =>
            rw [hb] at hpf
            simp [isOkB] at hpf
        | ok pf =>
            have hok : gpxInit d (q0 :: qrest) = .ok (buildState d q0 qrest pf) :=
              gpxInit_ok_of d q0 qrest pf
                (Or.inr (by rw [total_seconds_in_eq]; exact hts)) hb
            refine ⟨by rw [hok]; rfl, ?_⟩
            rw [initD_eq hok, buildState_total_distance, total_distance_in_eq]
            exact htd

/-! Claim C4. -/

/-- A channel-free single-point track. -/
def c4bInput : List PtIn := [mkPt 0 0 none]

/-- C4 counterexample: a one-point track without channels constructs
successfully — no InsufficientPointsError exists and no minimum-point check
is performed; and when a one-point track does carry a channel, the failure
that occurs is np.polyfit raising LinAlgError DURING regression (the sole
sample has abscissa 0), not an InsufficientPointsError before it. -/
theorem C4_counterexample :
    isOkB (gpxInit dLat c4bInput) = true
    ∧ gpxInit dLat c4Input = .error .linAlgError := by with_unfolding_all decide

/-- C4 amended: the code never checks the point count.  An empty track fails
with the IndexError of self.pts[-1], not InsufficientPointsError.  A
one-point track passes normalization untouched (both loops are empty, every
computed field stays 0): if it carries no channels it is accepted outright —
in particular a channel-free one-point reference track raises nothing at all
— and if it carries a channel, its single sample has abscissa 0 and
np.polyfit fails with LinAlgError during regression. -/
theorem C4_amended_no_min_point_check (d : DistFn) (q : PtIn) :
    gpxInit d [] = .error .indexError
    ∧ (parse_extensions q.ext = [] → gpxInit d [q] = .ok (buildState d q [] []))
    ∧ (parse_extensions q.ext ≠ [] → gpxInit d [q] = .error .linAlgError) := by
  refine ⟨rfl, ?_, ?_⟩
  · intro hq
    refine gpxInit_ok_of d q [] [] (Or.inl rfl) ?_
    rw [show trackValues d q []
          = (parse_extensions q.ext).foldl
              (fun vs e => add_sample vs e.1 (initPoint q).nelapsed e.2) [] from rfl]
    rw [hq]
    rfl
  · intro hq
    rw [gpxInit_cons, if_neg (by simp)]
    have hne : trackValues d q [] ≠ [] := by
      show (parse_extensions q.ext).foldl
          (fun vs e => add_sample vs e.1 (initPoint q).nelapsed e.2) [] ≠ []
      exact foldl_add_sample_ne_nil (initPoint q).nelapsed (parse_extensions q.ext) []
        (Or.inr hq)
    have hall : ∀ v ∈ trackValues d q [], ∀ x ∈ v.2.1, x = 0 := by
      show ∀ v ∈ (parse_extensions q.ext).foldl
          (fun vs e => add_sample vs e.1 (initPoint q).nelapsed e.2) [], ∀ x ∈ v.2.1, x = 0
      exact foldl_add_sample_zero (parse_extensions q.ext) [] (by simp)
    rw [buildPolyfit_allzero (trackValues d q []) hne hall]

/-! Claim C5. -/

/-- C5: time reconstruction sets every point timestamp of the reference track
to the source start timestamp plus the source effective moving duration
(total_seconds - total_still_time) times the point position fraction; in
particular the last point of a normalized multi-point reference track with
nonzero total distance, whose position fraction is 1, lands exactly at start
plus the effective moving duration.  (The nonzero-distance hypothesis scopes
out the NaN fractions of a zero-distance track, on which the program does not
produce timestamps at all: its fix_time crashes converting NaN seconds to a
timedelta.) -/
theorem C5_time_reconstruction (src : GpxState) (d : DistFn) (input : List PtIn)
    (ref : GpxState) (href : gpxInit d input = .ok ref)
    (i : ℕ) (hi : i < ref.pts.length) (h2 : input.tail ≠ [])
    (htd : ref.total_distance ≠ 0) :
    ((ref.fix_time src).pts.getD i dummyPt).time
      = src.start_time
        + (src.total_seconds - src.total_still_time) * ((ref.pts.getD i dummyPt).ndistance)
    ∧ ((ref.fix_time src).pts.getLast?.getD dummyPt).time
      = src.start_time + (src.total_seconds - src.total_still_time) := by
  constructor
  · show ((ref.pts.map (TrackPoint.fix_time src.start_time
        (src.total_seconds - src.total_still_time))).getD i dummyPt).time = _
    rw [getD_map_of_lt _ _ i hi dummyPt dummyPt]
    rfl
  · obtain ⟨q0, qrest, pf, heq, -, hg, -⟩ := gpxInit_ok_inv href
    have h0 : qrest ≠ [] := by rw [heq] at h2; simpa using h2
    have htd' : total_distance_in d q0 qrest ≠ 0 := by
      rw [hg, buildState_total_distance] at htd
      exact htd
    have hne : ref.pts ≠ [] := by
      rw [hg, buildState_pts]
      exact List.cons_ne_nil _ _
    obtain ⟨lastp, hlast⟩ := Option.isSome_iff_exists.mp (List.getLast?_isSome.mpr hne)
    have hnd : lastp.ndistance = 1 := by
      have hone := last_nd_one d q0 qrest h0 htd'
      rw [← buildState_pts d q0 qrest pf, ← hg, hlast] at hone
      simpa using hone
    show ((ref.pts.map (TrackPoint.fix_time src.start_time
        (src.total_seconds - src.total_still_time))).getLast?.getD dummyPt).time = _
    rw [List.getLast?_map, hlast]
    show src.start_time + (src.total_seconds - src.total_still_time) * lastp.ndistance = _
    rw [hnd, mul_one]

/-! Claim C6. -/

/-- C6: the total stationary duration is the sum, over consecutive point
pairs, of the contribution the specification describes — the whole
duration-since-previous exactly when the instantaneous rate (taken as 0 for a
zero duration) is strictly below 1.5, and 0 otherwise.  The first point, which
the code also feeds through calc_still_time, always contributes 0. -/
theorem C6_stationary_time (d : DistFn) (input : List PtIn) (g : GpxState)
    (h : gpxInit d input = .ok g)
    (hd : ∀ la1 lo1 la2 lo2 : ℚ, 0 ≤ d la1 lo1 la2 lo2) :
    g.total_still_time
      = ((consecPairs input).map (fun ab => claimStillContribution d ab.1 ab.2)).sum := by
  obtain ⟨q0, qrest, pf, heq, -, hg, -⟩ := gpxInit_ok_inv h
  subst heq
  subst hg
  rw [buildState_still, trackPts_map_calc, List.sum_cons]
  rw [show TrackPoint.calc_still_time (initPoint q0) = 0 from by
    show (if (if 0 < (0 : ℚ) then (0 : ℚ) / 0 else 0) < TrackPoint.MIN_RATE
          then (0 : ℚ) else 0) = 0
    split_ifs <;> rfl]
  rw [zero_add, adjustedRest_eq, List.map_map]
  refine congrArg List.sum (List.map_congr_left ?_)
  intro ab hab
  exact calc_still_pointwise d _ _ ab.1 ab.2 (hd _ _ _ _)

/-! Claim C7. -/

/-- C7 counterexample: a two-point track of coincident points with distinct
timestamps completes normalization with no error, its total distance is 0 and
the last accumulated distance is 0 — so the program's position fractions were
computed as np.float64 0.0/0.0, i.e. they are silently NaN, and the last
position fraction is not 1.0.  (The rational model's division-by-zero
convention places 0 there; that value, too, differs from 1.) -/
theorem C7_counterexample :
    isOkB (gpxInit dLat c3bInput) = true
    ∧ (initD dLat c3bInput).total_distance = 0
    ∧ ((initD dLat c3bInput).pts.getLast?.getD dummyPt).accumulated_distance = 0
    ∧ ((initD dLat c3bInput).pts.getLast?.getD dummyPt).ndistance ≠ 1 := by
  with_unfolding_all decide

/-- C7 amended: on a normalized multi-point track with a nonnegative distance
function and a nonzero total distance (the case in which the np.float64
fractions are genuine numbers), the accumulated distance is non-decreasing
along point order, hence so is the position fraction; the first point has
position fraction 0 and the last has position fraction 1.  On a multi-point
track with zero total distance the program instead completes normalization
with silently NaN fractions, so the last fraction is not 1.0 there. -/
theorem C7_amended_normalization_invariants (d : DistFn) (input : List PtIn) (g : GpxState)
    (h : gpxInit d input = .ok g)
    (hd : ∀ la1 lo1 la2 lo2 : ℚ, 0 ≤ d la1 lo1 la2 lo2)
    (h2 : input.tail ≠ []) (htdg : g.total_distance ≠ 0) :
    List.Chain' (· ≤ ·) (g.pts.map TrackPoint.accumulated_distance)
    ∧ List.Chain' (· ≤ ·) (g.pts.map TrackPoint.ndistance)
    ∧ (g.pts.headD dummyPt).ndistance = 0
    ∧ (g.pts.getLast?.getD dummyPt).ndistance = 1 := by
  obtain ⟨q0, qrest, pf, heq, -, hg, -⟩ := gpxInit_ok_inv h
  subst heq
  subst hg
  have h0 : qrest ≠ [] := by simpa using h2
  have hdist_nonneg : ∀ x ∈ (adjustedRest d q0 qrest).map TrackPoint.distance, 0 ≤ x := by
    intro x hx
    rw [adjustedRest_map_distance] at hx
    obtain ⟨ab, -, rfl⟩ := List.mem_map.mp hx
    exact hd _ _ _ _
  have htd : total_distance_in d q0 qrest ≠ 0 := by
    rw [buildState_total_distance] at htdg
    exact htdg
  have htd_sum : total_distance_in d q0 qrest
      = ((adjustedRest d q0 qrest).map TrackPoint.distance).sum := by
    unfold total_distance_in
    show 0 + _ = _
    rw [zero_add]
  have htd_pos : 0 < total_distance_in d q0 qrest := by
    rcases lt_or_eq_of_le (htd_sum ▸ List.sum_nonneg hdist_nonneg) with hlt | heq2
    · exact hlt
    · exact absurd heq2.symm htd
  have hch : List.Chain' (· ≤ ·)
      ((trackPts d q0 qrest).map TrackPoint.accumulated_distance) := by
    rw [trackPts_map_acc]
    exact accScan_chain 0 _ hdist_nonneg
  refine ⟨by rw [buildState_pts]; exact hch, ?_, rfl, last_nd_one d q0 qrest h0 htd⟩
  rw [buildState_pts]
  have hmap : (trackPts d q0 qrest).map TrackPoint.ndistance
      = ((trackPts d q0 qrest).map TrackPoint.accumulated_distance).map
          (fun a => a / total_distance_in d q0 qrest) := by
    rw [List.map_map]
    refine List.map_congr_left ?_
    intro pt hpt
    show pt.ndistance = pt.accumulated_distance / total_distance_in d q0 qrest
    unfold trackPts at hpt
    rcases List.mem_cons.mp hpt with h1 | h1
    · subst h1
      show (0 : ℚ) = 0 / total_distance_in d q0 qrest
      rw [zero_div]
    · exact ndistRest_nd _ _ _ _ h1
  rw [hmap, List.chain'_map]
  exact hch.imp (fun a b hab => (div_le_div_right htd_pos).mpr hab)

/-! Claim C9. -/

/-- Fallback channel entry for getD lookups. -/
def dummyChan : String × ℚ := ("", 0)

/-- Fallback polynomial entry for getD lookups. -/
def dummyPoly : String × List ℚ := ("", [])

/-- C9: every synthesized channel value is produced by evaluating the fitted
polynomial and rounding — a channel whose namespaced name ends in atemp is
rounded half-even at one decimal (within 1/20 of the raw value and equal to
the modelled Python round(value, 1)), and every other channel is rounded
half-even to an integer (within 1/2 of the raw value); the emitted channel
name is the namespaced name. -/
theorem C9_channel_rounding (pf : List (String × List ℚ)) (nd : ℚ)
    (j : ℕ) (hj : j < pf.length) :
    ((mkNewChildren pf nd).getD j dummyChan).1 = ns3Name (pf.getD j dummyPoly).1
    ∧ ((ns3Name (pf.getD j dummyPoly).1).drop 4 = "atemp" →
        ((mkNewChildren pf nd).getD j dummyChan).2
            = round1 (poly1d (pf.getD j dummyPoly).2 nd)
        ∧ |((mkNewChildren pf nd).getD j dummyChan).2
            - poly1d (pf.getD j dummyPoly).2 nd| ≤ 1 / 20)
    ∧ ((ns3Name (pf.getD j dummyPoly).1).drop 4 ≠ "atemp" →
        ((mkNewChildren pf nd).getD j dummyChan).2
            = ((pyRound (poly1d (pf.getD j dummyPoly).2 nd) : ℤ) : ℚ)
        ∧ |((mkNewChildren pf nd).getD j dummyChan).2
            - poly1d (pf.getD j dummyPoly).2 nd| ≤ 1 / 2) := by
  have hpair : (mkNewChildren pf nd).getD j dummyChan
      = (ns3Name (pf.getD j dummyPoly).1,
         if (ns3Name (pf.getD j dummyPoly).1).drop 4 = "atemp"
         then round1 (poly1d (pf.getD j dummyPoly).2 nd)
         else (pyRound (poly1d (pf.getD j dummyPoly).2 nd) : ℚ)) := by
    unfold mkNewChildren
    rw [getD_map_of_lt _ pf j hj dummyPoly dummyChan]
  refine ⟨by rw [hpair], fun hca => ⟨?_, ?_⟩, fun hca => ⟨?_, ?_⟩⟩
  · rw [hpair, if_pos hca]
  · rw [hpair, if_pos hca]
    exact round1_abs _
  · rw [hpair, if_neg hca]
  · rw [hpair, if_neg hca]
    exact pyRound_abs _

/-! Claim C10. -/

/-- C10: when no source point carries any parsed channel, construction still
succeeds with an empty sample dictionary and an empty channel-to-polynomial
mapping, and synthesis installs on every reference point a fresh extensions
subtree holding one ns3:TrackPointExtension group with zero channel children,
regardless of whatever extension content the reference point had before. -/
theorem C10_empty_channel_synthesis (d : DistFn) (input : List PtIn) (g : GpxState)
    (h : gpxInit d input = .ok g)
    (hnoext : ∀ q ∈ input, parse_extensions q.ext = [])
    (ref : GpxState) (i : ℕ) (hi : i < ref.pts.length) :
    g.values = [] ∧ g.polyfit = []
    ∧ ((ref.add_extensions g).pts.getD i dummyPt).docExt
        = some [("ns3:TrackPointExtension", [])] := by
  obtain ⟨q0, qrest, pf, heq, hpf, hg, -⟩ := gpxInit_ok_inv h
  subst heq
  subst hg
  have hext : ∀ pt ∈ trackPts d q0 qrest, pt.extensions = [] := by
    intro pt hpt
    have hmem : pt.extensions ∈ (trackPts d q0 qrest).map TrackPoint.extensions :=
      List.mem_map_of_mem _ hpt
    rw [trackPts_map_extensions] at hmem
    obtain ⟨q, hq, hqe⟩ := List.mem_map.mp hmem
    rw [← hqe]
    exact hnoext q hq
  have hvalT : trackValues d q0 qrest = [] := by
    unfold trackValues
    exact foldl_append_fit_empty _ hext []
  have hpf0 : pf = [] := by
    rw [hvalT] at hpf
    exact (Except.ok.inj hpf).symm
  refine ⟨by rw [buildState_values]; exact hvalT, by rw [buildState_polyfit]; exact hpf0, ?_⟩
  show ((ref.pts.map (TrackPoint.add_extensions
      (buildState d q0 qrest pf).polyfit)).getD i dummyPt).docExt = _
  rw [getD_map_of_lt _ _ i hi dummyPt dummyPt]
  show some [("ns3:TrackPointExtension",
      mkNewChildren (buildState d q0 qrest pf).polyfit _)] = _
  rw [buildState_polyfit, hpf0]
  rfl

/-! Witnesses: each hypothesis-carrying claim theorem applied at a concrete
track. -/

/-- Witness for C1 amended on the concrete three-point source track and
two-point reference track. -/
theorem C1_amended_witness :
    valuesX (initD dLat c1Input).values "ns3:hr"
      = (initD dLat c1Input).pts.bind (fun pt =>
          pt.extensions.filterMap (fun e => if e.1 = "ns3:hr" then some pt.nelapsed else none))
    ∧ (((initD dOne refInput).add_extensions (initD dLat c1Input)).pts.getD 0 dummyPt).docExt
      = some [("ns3:TrackPointExtension",
          mkNewChildren (initD dLat c1Input).polyfit
            (((initD dOne refInput).pts.getD 0 dummyPt).ndistance))] :=
  C1_amended_regression_abscissa dLat c1Input (initD dLat c1Input)
    (by with_unfolding_all decide) "ns3:hr" (initD dLat c1Input) (initD dOne refInput)
    0 (by with_unfolding_all decide)

/-- Witness for C3 amended on the two-point equal-timestamp track. -/
theorem C3_amended_witness :
    (raw_total_seconds c3aInput = 0 →
        gpxInit dLat c3aInput = .error .zeroDivisionError)
    ∧ (raw_total_seconds c3aInput ≠ 0 → raw_total_distance dLat c3aInput = 0 →
        isOkB (buildPolyfit (trackValues dLat (c3aInput.headD dummyIn) c3aInput.tail)) = true →
        isOkB (gpxInit dLat c3aInput) = true ∧ (initD dLat c3aInput).total_distance = 0) :=
  C3_amended_degenerate_tracks dLat c3aInput (by with_unfolding_all decide)

/-- Witness for C5 on the concrete source and reference tracks. -/
theorem C5_witness :
    (((initD dOne refInput).fix_time (initD dLat c1Input)).pts.getD 1 dummyPt).time
      = (initD dLat c1Input).start_time
        + ((initD dLat c1Input).total_seconds - (initD dLat c1Input).total_still_time)
          * (((initD dOne refInput).pts.getD 1 dummyPt).ndistance)
    ∧ (((initD dOne refInput).fix_time (initD dLat c1Input)).pts.getLast?.getD dummyPt).time
      = (initD dLat c1Input).start_time
        + ((initD dLat c1Input).total_seconds - (initD dLat c1Input).total_still_time) :=
  C5_time_reconstruction (initD dLat c1Input) dOne refInput (initD dOne refInput)
    (by with_unfolding_all decide) 1 (by with_unfolding_all decide)
    (by with_unfolding_all decide) (by with_unfolding_all decide)

/-- Witness for C6 on the two-point unit-distance track. -/
theorem C6_witness :
    (initD dOne refInput).total_still_time
      = ((consecPairs refInput).map (fun ab => claimStillContribution dOne ab.1 ab.2)).sum :=
  C6_stationary_time dOne refInput (initD dOne refInput)
    (by with_unfolding_all decide) (fun _ _ _ _ => zero_le_one)

/-- Witness for C7 amended on the two-point unit-distance track. -/
theorem C7_witness :
    List.Chain' (· ≤ ·) ((initD dOne refInput).pts.map TrackPoint.accumulated_distance)
    ∧ List.Chain' (· ≤ ·) ((initD dOne refInput).pts.map TrackPoint.ndistance)
    ∧ ((initD dOne refInput).pts.headD dummyPt).ndistance = 0
    ∧ ((initD dOne refInput).pts.getLast?.getD dummyPt).ndistance = 1 :=
  C7_amended_normalization_invariants dOne refInput (initD dOne refInput)
    (by with_unfolding_all decide) (fun _ _ _ _ => zero_le_one)
    (by with_unfolding_all decide) (by with_unfolding_all decide)

/-- Concrete one-channel fit mapping for the C9 witness. -/
def w9pf : List (String × List ℚ) := [("hr", [3])]

/-- Witness for C9 on a concrete non-temperature channel. -/
theorem C9_witness :
    ((mkNewChildren w9pf 0).getD 0 dummyChan).1 = ns3Name (w9pf.getD 0 dummyPoly).1
    ∧ ((ns3Name (w9pf.getD 0 dummyPoly).1).drop 4 = "atemp" →
        ((mkNewChildren w9pf 0).getD 0 dummyChan).2
            = round1 (poly1d (w9pf.getD 0 dummyPoly).2 0)
        ∧ |((mkNewChildren w9pf 0).getD 0 dummyChan).2
            - poly1d (w9pf.getD 0 dummyPoly).2 0| ≤ 1 / 20)
    ∧ ((ns3Name (w9pf.getD 0 dummyPoly).1).drop 4 ≠ "atemp" →
        ((mkNewChildren w9pf 0).getD 0 dummyChan).2
            = ((pyRound (poly1d (w9pf.getD 0 dummyPoly).2 0) : ℤ) : ℚ)
        ∧ |((mkNewChildren w9pf 0).getD 0 dummyChan).2
            - poly1d (w9pf.getD 0 dummyPoly).2 0| ≤ 1 / 2) :=
  C9_channel_rounding w9pf 0 0 (by with_unfolding_all decide)

/-- Witness for C10 on the extension-free two-point track. -/
theorem C10_witness :
    (initD dOne refInput).values = [] ∧ (initD dOne refInput).polyfit = []
    ∧ (((initD dOne refInput).add_extensions (initD dOne refInput)).pts.getD 0 dummyPt).docExt
        = some [("ns3:TrackPointExtension", [])] :=
  C10_empty_channel_synthesis dOne refInput (initD dOne refInput)
    (by with_unfolding_all decide) (by with_unfolding_all decide)
    (initD dOne refInput) 0 (by with_unfolding_all decide)

end GpxFixer
